import Mathlib

/-!
Verification of the arbitrage_fund repository (Python) against its
natural-language specification.

The embedding models Python/JSON values with the inductive `PyVal`
(Python `int` and `float` are kept as separate constructors because
`isinstance` distinguishes them; numeric magnitudes are modelled as
rationals, which agree with IEEE doubles on every comparison appearing
in the claims).  Python dicts are modelled as association lists with
left-most-match lookup (dict keys are unique, and insertion that
overwrites is modelled explicitly where it occurs).  Fallible Python
code (code that can raise) is modelled with `Except String`.
-/

inductive PyVal where
  | none
  | bool (b : Bool)
  | int (n : Int)
  | float (q : ℚ)
  | str (s : String)
  | list (xs : List PyVal)
  | dict (fs : List (String × PyVal))

/-- A flat Python dict with string keys, as produced by JSON objects. -/
abbrev Record := List (String × PyVal)

/-- `d.get(k)` / `d[k]` lookup on a Python dict: left-most matching key. -/
def pyDictGet (r : Record) (k : String) : Option PyVal :=
  (r.find? (fun p => p.1 == k)).map (fun p => p.2)

/-- `d.get(k, dflt)`. -/
def pyDictGetD (r : Record) (k : String) (d : PyVal) : PyVal :=
  (pyDictGet r k).getD d

/-- Python `v == s` where `s` is a string literal.  In Python, `==`
between a string and a non-string is `False` (numeric cross-type
equality only relates `bool`/`int`/`float`), so comparing against a
string literal is exactly string equality on the `str` constructor. -/
def PyVal.eqStr (v : PyVal) (s : String) : Bool :=
  match v with
  | .str t => t == s
  | _ => false

/-- Python truthiness (`if x:`). -/
def pyTruthy : PyVal → Bool
  | .none => false
  | .bool b => b
  | .int n => n != 0
  | .float q => q != 0
  | .str s => s != ""
  | .list xs => !xs.isEmpty
  | .dict fs => !fs.isEmpty

/-! ### Python `float(...)` on decimal strings

`pyParseFloat` models `float(s)`: surrounding whitespace is ignored, an
optional sign is followed by a decimal mantissa (digits with at most one
dot, at least one digit overall) and an optional exponent part.  The
special spellings `inf`/`nan` and digit-group underscores fall outside
the rational value domain of this development and are not modelled; no
input appearing in any claim, example or counterexample uses them. -/

def digitsToNat (ds : List Char) : Nat :=
  ds.foldl (fun a c => a * 10 + (c.toNat - 48)) 0

/-- Parse an unsigned decimal mantissa (`12`, `12.`, `12.5`, `.5`),
returning its digit value, the number of fractional digits, and the
unconsumed rest (the mantissa denotes `value / 10 ^ fracDigits`). -/
def parseMantissa (cs : List Char) : Option (Nat × Nat × List Char) :=
  let ip := cs.takeWhile Char.isDigit
  let r1 := cs.dropWhile Char.isDigit
  match r1 with
  | '.' :: r2 =>
    let fp := r2.takeWhile Char.isDigit
    let r3 := r2.dropWhile Char.isDigit
    if ip.isEmpty && fp.isEmpty then Option.none
    else Option.some (digitsToNat (ip ++ fp), fp.length, r3)
  | _ =>
    if ip.isEmpty then Option.none else Option.some (digitsToNat ip, 0, r1)

/-- Parse the part after `e`/`E`: optional sign then at least one digit,
consuming the whole rest. -/
def parseExpTail (cs : List Char) : Option Int :=
  let (sg, cs2) : Int × List Char :=
    match cs with
    | '-' :: r => (-1, r)
    | '+' :: r => (1, r)
    | r => (1, r)
  let ds := cs2.takeWhile Char.isDigit
  let rest := cs2.dropWhile Char.isDigit
  if ds.isEmpty || !rest.isEmpty then Option.none
  else Option.some (sg * (digitsToNat ds : Int))

def pyParseFloat (s : String) : Option ℚ :=
  let cs := ((s.data.dropWhile Char.isWhitespace).reverse.dropWhile Char.isWhitespace).reverse
  let (sg, cs2) : Int × List Char :=
    match cs with
    | '-' :: r => (-1, r)
    | '+' :: r => (1, r)
    | r => (1, r)
  match parseMantissa cs2 with
  | Option.none => Option.none
  | Option.some (m, k, rest) =>
    let finish : Int → ℚ := fun e =>
      if 0 ≤ e then mkRat (sg * (m : Int) * (10 : Int) ^ e.toNat) ((10 : Nat) ^ k)
      else mkRat (sg * (m : Int)) ((10 : Nat) ^ (k + (-e).toNat))
    match rest with
    | [] => Option.some (finish 0)
    | 'e' :: r => (parseExpTail r).map finish
    | 'E' :: r => (parseExpTail r).map finish
    | _ => Option.none

/-- Python `float(v)` on a value: numbers pass through (`bool` is an
`int` subclass), strings are parsed, everything else is a `TypeError`,
returned as `none` because every caller in the sources catches
`(ValueError, TypeError)`. -/
def pyFloat : PyVal → Option ℚ
  | .int n => Option.some (mkRat n 1)
  | .float q => Option.some q
  | .bool b => Option.some (if b then 1 else 0)
  | .str s => pyParseFloat s
  | _ => Option.none

/-- `value.replace('%', '')` guarded by `isinstance(value, str)`:
removes every percent character of a string, leaves other values
untouched. -/
def stripPercent : PyVal → PyVal
  | .str s => .str (String.mk (s.data.filter (fun c => c != '%')))
  | v => v

/-! ### lof_data.py: `_is_qualified_fund`, record materialization -/

/-- `LOFDataHandler._is_qualified_fund` (lof_data.py lines 204-233). -/
def isQualifiedFund (lof : Record) : Bool :=
  let applyStatus := pyDictGetD lof "apply_status" (.str "")
  if applyStatus.eqStr "暂停申购" then false
  else
    let redeemStatus := pyDictGetD lof "redeem_status" (.str "")
    if !(redeemStatus.eqStr "开放赎回") then false
    else
      let discountRt := pyDictGetD lof "discount_rt" (.str "")
      match pyFloat (stripPercent discountRt) with
      | Option.some q => decide (q > 4)
      | Option.none => false

/-- The `LOFFund` dataclass (lof_data.py lines 8-32). -/
structure LOFFund where
  fund_id : PyVal
  fund_nm : PyVal
  price : PyVal
  pre_close : PyVal
  price_dt : PyVal
  increase_rt : PyVal
  volume : PyVal
  amount : PyVal
  amount_incr : PyVal
  fund_nav : PyVal
  estimate_value : PyVal
  discount_rt : PyVal
  index_id : PyVal
  index_nm : PyVal
  index_increase_rt : PyVal
  apply_fee : PyVal
  apply_status : PyVal
  redeem_fee : PyVal
  redeem_status : PyVal
  turnover_rt : PyVal
  nav_dt : PyVal

/-- The `LOFFund(...)` construction shared verbatim by
`get_fund_struct_array` and `get_deserve_arbitrage_fund`
(lof_data.py lines 240-262 and 273-295).  Every field uses
`lof.get(field, '')` except `nav_dt`, which uses `lof.get('nav_dt')`
(defaulting to Python `None`). -/
def mkLOFFund (lof : Record) : LOFFund where
  fund_id := pyDictGetD lof "fund_id" (.str "")
  fund_nm := pyDictGetD lof "fund_nm" (.str "")
  price := pyDictGetD lof "price" (.str "")
  pre_close := pyDictGetD lof "pre_close" (.str "")
  price_dt := pyDictGetD lof "price_dt" (.str "")
  increase_rt := pyDictGetD lof "increase_rt" (.str "")
  volume := pyDictGetD lof "volume" (.str "")
  amount := pyDictGetD lof "amount" (.str "")
  amount_incr := pyDictGetD lof "amount_incr" (.str "")
  fund_nav := pyDictGetD lof "fund_nav" (.str "")
  estimate_value := pyDictGetD lof "estimate_value" (.str "")
  discount_rt := pyDictGetD lof "discount_rt" (.str "")
  index_id := pyDictGetD lof "index_id" (.str "")
  index_nm := pyDictGetD lof "index_nm" (.str "")
  index_increase_rt := pyDictGetD lof "index_increase_rt" (.str "")
  apply_fee := pyDictGetD lof "apply_fee" (.str "")
  apply_status := pyDictGetD lof "apply_status" (.str "")
  redeem_fee := pyDictGetD lof "redeem_fee" (.str "")
  redeem_status := pyDictGetD lof "redeem_status" (.str "")
  turnover_rt := pyDictGetD lof "turnover_rt" (.str "")
  nav_dt := (pyDictGet lof "nav_dt").getD .none

/-- `get_fund_struct_array` (lof_data.py lines 235-264): one `LOFFund`
per record, in order. -/
def getFundStructArray (l : List Record) : List LOFFund :=
  l.map mkLOFFund

/-- `get_deserve_arbitrage_fund` (lof_data.py lines 266-297): the loop
appends the materialized struct exactly for qualified records. -/
def getDeserveArbitrageFund : List Record → List LOFFund
  | [] => []
  | lof :: rest =>
    if isQualifiedFund lof then mkLOFFund lof :: getDeserveArbitrageFund rest
    else getDeserveArbitrageFund rest

/-! ### lof_data.py: `_sort_lof_list` -/

/-- The sort key of `_sort_lof_list` (lof_data.py lines 116-124):
`item.get(field, '0')`, percent signs stripped when the value is a
string, float coercion with `0.0` on coercion failure. -/
def sortKey (field : String) (item : Record) : ℚ :=
  match pyFloat (stripPercent (pyDictGetD item field (.str "0"))) with
  | Option.some q => q
  | Option.none => 0

def validSortFields : List String := ["discount_rt", "premium_rt"]

/-- `_sort_lof_list` (lof_data.py lines 101-131): a no-op for a field
outside the enumerated set, otherwise Python's stable `list.sort` with
`key=sort_key, reverse=True`, modelled as a stable descending merge
sort (`reverse=True` in Python does not reverse equal elements). -/
def sortLofList (field : String) (l : List Record) : List Record :=
  if field ∈ validSortFields then
    l.mergeSort (fun a b => decide (sortKey field b ≤ sortKey field a))
  else l

def demoSortRecords : List Record :=
  [[("discount_rt", .str "3.0%")], [("discount_rt", .str "5.0%")],
   [("discount_rt", .str "bad")], [("discount_rt", .str "5.0%")]]

/-! ### C5: default fill of absent fields -/

/-- The twenty fields filled with `lof.get(field, '')`, paired with
their accessors. -/
def strDefaultFields : List (String × (LOFFund → PyVal)) :=
  [("fund_id", LOFFund.fund_id), ("fund_nm", LOFFund.fund_nm),
   ("price", LOFFund.price), ("pre_close", LOFFund.pre_close),
   ("price_dt", LOFFund.price_dt), ("increase_rt", LOFFund.increase_rt),
   ("volume", LOFFund.volume), ("amount", LOFFund.amount),
   ("amount_incr", LOFFund.amount_incr), ("fund_nav", LOFFund.fund_nav),
   ("estimate_value", LOFFund.estimate_value), ("discount_rt", LOFFund.discount_rt),
   ("index_id", LOFFund.index_id), ("index_nm", LOFFund.index_nm),
   ("index_increase_rt", LOFFund.index_increase_rt), ("apply_fee", LOFFund.apply_fee),
   ("apply_status", LOFFund.apply_status), ("redeem_fee", LOFFund.redeem_fee),
   ("redeem_status", LOFFund.redeem_status), ("turnover_rt", LOFFund.turnover_rt)]

/-! ### db_utils.py: schema and upserts

Database state is modelled as the list of stored rows.  Timestamps and
dates are abstract `Nat` instants supplied by the caller (`now` for
`CURRENT_TIMESTAMP`, `today` for `datetime.now().date()`). -/

/-- Scalar equality of stored column values (VARCHAR cells hold
strings or NULL; containers never reach the database). -/
def pyScalarEq : PyVal → PyVal → Bool
  | .none, .none => true
  | .bool a, .bool b => a == b
  | .int a, .int b => a == b
  | .float a, .float b => a == b
  | .str a, .str b => a == b
  | _, _ => false

/-- One row of the `funds` table (db_utils.py lines 102-130). -/
structure FundsRow where
  fund_id : PyVal
  fund_nm : PyVal
  price : PyVal
  pre_close : PyVal
  price_dt : PyVal
  nav_dt : PyVal
  increase_rt : PyVal
  volume : PyVal
  amount : PyVal
  amount_incr : PyVal
  fund_nav : PyVal
  estimate_value : PyVal
  discount_rt : PyVal
  index_id : PyVal
  index_nm : PyVal
  index_increase_rt : PyVal
  apply_fee : PyVal
  apply_status : PyVal
  redeem_fee : PyVal
  redeem_status : PyVal
  turnover_rt : PyVal
  date : Nat
  created_at : Nat

/-- The `UNIQUE KEY unique_fund (fund_id, fund_nm, nav_dt)` collision
test (db_utils.py line 128).  In a MySQL unique index a `NULL` entry
never collides, hence the final guard on `nav_dt`. -/
def fundKeyConflict (r : FundsRow) (f : LOFFund) : Bool :=
  pyScalarEq r.fund_id f.fund_id && pyScalarEq r.fund_nm f.fund_nm &&
  pyScalarEq r.nav_dt f.nav_dt && !(pyScalarEq f.nav_dt .none)

/-- The row written by the INSERT column list of `save_funds`
(db_utils.py lines 162-169, 191-197): every snapshot field, `date` from
`datetime.now().date()` at call time, `created_at` from its
`CURRENT_TIMESTAMP` column default. -/
def insertFundRow (f : LOFFund) (today now : Nat) : FundsRow where
  fund_id := f.fund_id
  fund_nm := f.fund_nm
  price := f.price
  pre_close := f.pre_close
  price_dt := f.price_dt
  nav_dt := f.nav_dt
  increase_rt := f.increase_rt
  volume := f.volume
  amount := f.amount
  amount_incr := f.amount_incr
  fund_nav := f.fund_nav
  estimate_value := f.estimate_value
  discount_rt := f.discount_rt
  index_id := f.index_id
  index_nm := f.index_nm
  index_increase_rt := f.index_increase_rt
  apply_fee := f.apply_fee
  apply_status := f.apply_status
  redeem_fee := f.redeem_fee
  redeem_status := f.redeem_status
  turnover_rt := f.turnover_rt
  date := today
  created_at := now

/-- The `ON DUPLICATE KEY UPDATE` assignment list of `save_funds`
(db_utils.py lines 170-190): all mutable market fields, `date`, and
also `created_at = CURRENT_TIMESTAMP`.  The key columns `fund_id`,
`fund_nm`, `nav_dt` are not assigned. -/
def updateFundRow (r : FundsRow) (f : LOFFund) (today now : Nat) : FundsRow :=
  { r with
    price := f.price, pre_close := f.pre_close, price_dt := f.price_dt,
    increase_rt := f.increase_rt, volume := f.volume, amount := f.amount,
    amount_incr := f.amount_incr, fund_nav := f.fund_nav,
    estimate_value := f.estimate_value, discount_rt := f.discount_rt,
    index_id := f.index_id, index_nm := f.index_nm,
    index_increase_rt := f.index_increase_rt, apply_fee := f.apply_fee,
    apply_status := f.apply_status, redeem_fee := f.redeem_fee,
    redeem_status := f.redeem_status, turnover_rt := f.turnover_rt,
    date := today, created_at := now }

/-- One `INSERT ... ON DUPLICATE KEY UPDATE` execution against `funds`. -/
def upsertFund (rows : List FundsRow) (f : LOFFund) (today now : Nat) : List FundsRow :=
  if rows.any (fun r => fundKeyConflict r f) then
    rows.map (fun r => if fundKeyConflict r f then updateFundRow r f today now else r)
  else rows ++ [insertFundRow f today now]

/-- `save_funds` (db_utils.py lines 154-205): the whole batch in order. -/
def saveFunds (rows : List FundsRow) (funds : List LOFFund) (today now : Nat) : List FundsRow :=
  funds.foldl (fun acc f => upsertFund acc f today now) rows

def demoFundA : LOFFund :=
  mkLOFFund [("fund_id", .str "160633"), ("fund_nm", .str "基金A"),
             ("nav_dt", .str "2026-01-08"), ("price", .str "1.000")]

def demoFundB : LOFFund :=
  mkLOFFund [("fund_id", .str "160633"), ("fund_nm", .str "基金A"),
             ("nav_dt", .str "2026-01-08"), ("price", .str "1.100")]

/-! ### db_utils.py: `ai_analyses` and `save_ai_analysis` -/

/-- One row of the `ai_analyses` table (db_utils.py lines 133-144).
The schema declares the auto-increment primary key `id` and NO other
unique key; in particular none on `(fund_code, date)`. -/
structure AiRow where
  id : Nat
  analysis_content : String
  fund_name : String
  fund_code : String
  nav_dt : String
  created_at : Nat
  update_at : Nat
  date : Nat

/-- `save_ai_analysis` (db_utils.py lines 208-238): it executes
`INSERT ... ON DUPLICATE KEY UPDATE` against `ai_analyses`.  A MySQL
upsert takes its update branch only when the inserted row collides on
some unique index of the table; the only unique index of `ai_analyses`
is the primary key, whose auto-generated fresh value never collides, so
the update branch is dead and every call appends a row.  `nav_dt`
defaults to today when absent or empty (Python falsy test), and
`analysis_date` defaults to today when absent. -/
def saveAiAnalysis (db : List AiRow) (nextId : Nat)
    (content name code : String) (navDt : Option String)
    (analysisDate : Option Nat) (todayStr : String) (today now : Nat) :
    List AiRow × Nat :=
  let nav : String :=
    match navDt with
    | Option.none => todayStr
    | Option.some s => if s == "" then todayStr else s
  let d : Nat :=
    match analysisDate with
    | Option.none => today
    | Option.some x => x
  let newRow : AiRow :=
    ⟨nextId, content, name, code, nav, now, now, d⟩
  if db.any (fun r => r.id == newRow.id) then
    (db.map (fun r =>
      if r.id == newRow.id then
        { r with analysis_content := content, fund_name := name,
                 nav_dt := nav, date := d, update_at := now }
      else r), nextId)
  else (db ++ [newRow], nextId + 1)

/-! ### db_utils.py: connection handling (C7)

Each operation is modelled against an environment recording the
outcomes of the primitive calls it may make: whether the connection is
live on entry, whether `connect()` would succeed when called, and the
outcomes of the first and (if ever attempted) second
`execute`/`fetchall`. -/

inductive DbErr where
  | connLost
  | other

/-- The detection `"Lost connection" in str(e) or "2013" in str(e)`
(db_utils.py line 272). -/
def isConnLossErr : DbErr → Bool
  | .connLost => true
  | .other => false

structure DbEnv (Row : Type) where
  connected : Bool
  connectOk : Bool
  exec1 : Except DbErr (List Row)
  exec2 : Except DbErr (List Row)

/-- `ensure_connection` (db_utils.py lines 88-93). -/
def ensureConnection (connected connectOk : Bool) : Bool :=
  if connected then true else connectOk

/-- `query_to_model` (db_utils.py lines 240-296): guard, first attempt,
and on a detected connection-loss error exactly one retry after a
successful reconnect; every other failure yields `[]`. -/
def queryToModel {Row : Type} (env : DbEnv Row) : List Row :=
  if !(ensureConnection env.connected env.connectOk) then []
  else
    match env.exec1 with
    | .ok rows => rows
    | .error e =>
      if isConnLossErr e then
        if env.connectOk then
          match env.exec2 with
          | .ok rows => rows
          | .error _ => []
        else []
      else []

/-- `get_funds_by_date` (db_utils.py lines 298-326): guard, single
attempt, empty dict on any failure.  No retry exists in its body. -/
def getFundsByDateOp {Row : Type} (env : DbEnv Row) : List Row :=
  if !(ensureConnection env.connected env.connectOk) then []
  else
    match env.exec1 with
    | .ok rows => rows
    | .error _ => []

/-- `get_funds_by_nav_dt` (db_utils.py lines 328-356): same skeleton as
`get_funds_by_date`. -/
def getFundsByNavDtOp {Row : Type} (env : DbEnv Row) : List Row :=
  if !(ensureConnection env.connected env.connectOk) then []
  else
    match env.exec1 with
    | .ok rows => rows
    | .error _ => []

/-- The connection skeleton of `save_funds` (db_utils.py lines
154-205): guard then one attempt, `False` on failure. -/
def saveFundsOp {Row : Type} (env : DbEnv Row) : Bool :=
  if !(ensureConnection env.connected env.connectOk) then false
  else
    match env.exec1 with
    | .ok _ => true
    | .error _ => false

/-- The connection skeleton of `save_ai_analysis` (db_utils.py lines
208-238): guard then one attempt, `False` on failure. -/
def saveAiAnalysisOp {Row : Type} (env : DbEnv Row) : Bool :=
  if !(ensureConnection env.connected env.connectOk) then false
  else
    match env.exec1 with
    | .ok _ => true
    | .error _ => false

/-- Modelled from the spec: `get_funds_by_date` as the claim describes
it, with exactly one transparent retry after reconnecting when the
first attempt fails with a detected connection-loss error. -/
def specGetFundsByDateOp {Row : Type} (env : DbEnv Row) : List Row :=
  if !(ensureConnection env.connected env.connectOk) then []
  else
    match env.exec1 with
    | .ok rows => rows
    | .error e =>
      if isConnLossErr e then
        if env.connectOk then
          match env.exec2 with
          | .ok rows => rows
          | .error _ => []
        else []
      else []

/-! ### lof_data.py: `_parse_data` (C6)

`_parse_data` can raise (a `TypeError` from `len`, iteration or
membership on ill-typed values, a `ValueError` from `int()`), so the
parse is modelled in `Except String`: `.error` marks an uncaught Python
exception escaping `LOFDataHandler.__init__`. -/

def PyVal.isDictV : PyVal → Bool
  | .dict _ => true
  | _ => false

/-- Python `len(v)`. -/
def pyLen : PyVal → Except String Nat
  | .str s => .ok s.length
  | .list xs => .ok xs.length
  | .dict fs => .ok fs.length
  | _ => .error "TypeError: object has no len"

/-- Python `int(v)`: numbers truncate toward zero, `bool` counts as
`int`, strings must spell an optionally signed run of digits. -/
def pyInt : PyVal → Except String Int
  | .int n => .ok n
  | .bool b => .ok (if b then 1 else 0)
  | .float q => .ok (q.num.tdiv (q.den : Int))
  | .str s =>
    let cs := ((s.data.dropWhile Char.isWhitespace).reverse.dropWhile
      Char.isWhitespace).reverse
    let (sg, cs2) : Int × List Char :=
      match cs with
      | '-' :: r => (-1, r)
      | '+' :: r => (1, r)
      | r => (1, r)
    if cs2.isEmpty || !(cs2.all Char.isDigit) then
      .error "ValueError: invalid literal for int"
    else .ok (sg * (digitsToNat cs2 : Int))
  | _ => .error "TypeError: int() argument"

/-- Substring test on character lists. -/
def isSubstringOf (needle hay : List Char) : Bool :=
  (List.range (hay.length + 1)).any (fun i => needle.isPrefixOf (hay.drop i))

/-- Python `needle in v` for a string-literal needle: key membership in
dicts, substring in strings, element membership in lists, `TypeError`
elsewhere. -/
def pyContains (needle : String) : PyVal → Except String Bool
  | .dict fs => .ok (fs.any (fun p => p.1 == needle))
  | .str s => .ok (isSubstringOf needle.data s.data)
  | .list xs => .ok (xs.any (fun x => x.eqStr needle))
  | _ => .error "TypeError: argument of this type is not iterable"

/-- Python `v[k]` for a string key. -/
def pySubscript (v : PyVal) (k : String) : Except String PyVal :=
  match v with
  | .dict fs =>
    match pyDictGet fs k with
    | Option.some x => .ok x
    | Option.none => .error "KeyError"
  | _ => .error "TypeError: indices must be integers"

/-- Python `for x in v`: lists yield elements, strings yield
1-character strings, dicts yield keys. -/
def pyIter : PyVal → Except String (List PyVal)
  | .list xs => .ok xs
  | .str s => .ok (s.data.map (fun c => .str (String.mk [c])))
  | .dict fs => .ok (fs.map (fun p => .str p.1))
  | _ => .error "TypeError: object is not iterable"

/-- The page-information extraction of `_parse_data` (lof_data.py lines
66-89).  The dict literal of the `int`/`str` page branch evaluates
`int(raw['page'])` first, then the eager default
`len(self.raw_data.get('rows', []))`. -/
def parsePageInfo (fs : Record) : Except String Record :=
  match pyDictGet fs "page" with
  | Option.some pv =>
    match pv with
    | .dict g => .ok g
    | .int _ | .bool _ | .str _ =>
      (pyInt pv).bind (fun n =>
        (pyLen (pyDictGetD fs "rows" (.list []))).map (fun rowsLen =>
          [("page", .int n), ("total", pyDictGetD fs "total" (.int 1)),
           ("records", pyDictGetD fs "records" (.int (rowsLen : Int)))]))
    | _ => .ok []
  | Option.none =>
    if fs.any (fun p => p.1 == "rows") then
      (pyLen (pyDictGetD fs "rows" .none)).map (fun rowsLen =>
        [("page", .int 1), ("total", .int 1), ("records", .int (rowsLen : Int))])
    else .ok []

/-- The row extraction loop of `_parse_data` (lof_data.py lines 92-95):
`if 'cell' in row: lof_list.append(row['cell'])`. -/
def extractRowsLoop : List PyVal → List PyVal → Except String (List PyVal)
  | [], acc => .ok acc
  | row :: rest, acc =>
    (pyContains "cell" row).bind (fun c =>
      if c then
        (pySubscript row "cell").bind (fun cell =>
          extractRowsLoop rest (acc ++ [cell]))
      else extractRowsLoop rest acc)

def extractRows (rows : PyVal) : Except String (List PyVal) :=
  (pyIter rows).bind (fun items => extractRowsLoop items [])

/-- `_parse_data` (lof_data.py lines 53-99) for a handler constructed
without a sort field, returning `(page_info, lof_list)`.  The optional
trailing sort step is `_sort_lof_list`, modelled separately; its body
sits in `try/except Exception` and cannot raise. -/
def parseData (raw : PyVal) : Except String (Record × List PyVal) :=
  if !(pyTruthy raw) then .ok ([], [])
  else
    match raw with
    | .dict fs =>
      (parsePageInfo fs).bind (fun pageInfo =>
        if fs.any (fun p => p.1 == "rows") then
          (extractRows (pyDictGetD fs "rows" .none)).map (fun cells => (pageInfo, cells))
        else .ok (pageInfo, []))
    | _ => .ok ([], [])

/-- The cells of the rows entries that are dicts holding a `cell` key;
dict entries lacking the key contribute nothing. -/
def extractCellsOfDicts (rows : List PyVal) : List PyVal :=
  rows.filterMap (fun r =>
    match r with
    | .dict g => pyDictGet g "cell"
    | _ => Option.none)

/-- A well-shaped `page` value: when it is a string, `int()` accepts it
(dict, int and bool shapes always pass, any other shape is skipped). -/
def pageShapeOk (fs : Record) : Prop :=
  ∀ s : String, pyDictGet fs "page" = Option.some (.str s) →
    ∃ n : Int, pyInt (.str s) = Except.ok n

/-! ### main.py: `GET /api/ai-analyses/{date}` (C8)

The endpoint is modelled at the database-state level: the stored
`ai_analyses` and `funds` rows stand in for the two queries (the
connection layer is modelled separately), and the `YYYY-MM-DD`
`strptime` check is a boolean input whose only use is selecting the
400 branch. -/

/-- The projection `SELECT fund_id, fund_nm, estimate_value, price,
apply_status` of `get_funds_by_date` (db_utils.py lines 309-313).
`discount_rt` is NOT among the selected columns. -/
def projFundRow (r : FundsRow) : Record :=
  [("fund_id", r.fund_id), ("fund_nm", r.fund_nm),
   ("estimate_value", r.estimate_value), ("price", r.price),
   ("apply_status", r.apply_status)]

/-- Python dict assignment `d[k] = v` on an association list:
overwrite in place or append. -/
def assocSet (m : List (PyVal × Record)) (k : PyVal) (v : Record) :
    List (PyVal × Record) :=
  if m.any (fun p => pyScalarEq p.1 k) then
    m.map (fun p => if pyScalarEq p.1 k then (k, v) else p)
  else m ++ [(k, v)]

def assocGet (m : List (PyVal × Record)) (k : PyVal) : Option Record :=
  (m.find? (fun p => pyScalarEq p.1 k)).map (fun p => p.2)

/-- `get_funds_by_date` at the state level (db_utils.py lines 298-326):
the projected rows whose ingestion `date` matches, keyed by `fund_id`
(`fund_dict[fund['fund_id']] = fund`, later rows overwriting). -/
def getFundsByDateState (rows : List FundsRow) (d : Nat) :
    List (PyVal × Record) :=
  (rows.filter (fun r => r.date == d)).foldl
    (fun m r => assocSet m r.fund_id (projFundRow r)) []

/-- One item of the endpoint's `data` list (main.py lines 193-203). -/
structure AnalysisItem where
  data : String
  title : String
  fund_name : String
  fund_code : String
  nav_dt : String
  estimate_value : PyVal
  price : PyVal
  apply_status : PyVal
  discount_rt : PyVal

/-- `get_discount_rt_value` (main.py lines 206-215): falsy values sort
as negative infinity (`Option.none` here); a string has its percent
signs stripped and is parsed, unparsable text again giving negative
infinity; a truthy non-string has no `.replace`, so the
`AttributeError` is caught and it too sorts last. -/
def discountKey (v : PyVal) : Option ℚ :=
  if !(pyTruthy v) then Option.none
  else
    match v with
    | .str s => pyParseFloat (String.mk (s.data.filter (fun c => c != '%')))
    | _ => Option.none

/-- `a ≤ b` on sort keys, `Option.none` playing negative infinity. -/
def keyLe (a b : Option ℚ) : Bool :=
  match a, b with
  | Option.none, _ => true
  | Option.some _, Option.none => false
  | Option.some x, Option.some y => decide (x ≤ y)

inductive ApiResp where
  | badRequest
  | ok (date : Nat) (count : Nat) (data : List AnalysisItem)

/-- The item construction of the endpoint loop (main.py lines 184-203):
one AnalysisRecord joined with `fund_dict.get(fund_code, {})`, each
fund field defaulting to the empty string. -/
def mkAnalysisItem (fundDict : List (PyVal × Record)) (a : AiRow) :
    AnalysisItem :=
  let fi : Record := (assocGet fundDict (.str a.fund_code)).getD []
  { data := a.analysis_content,
    title := a.fund_name ++ "(" ++ a.fund_code ++ ")",
    fund_name := a.fund_name,
    fund_code := a.fund_code,
    nav_dt := a.nav_dt,
    estimate_value := pyDictGetD fi "estimate_value" (.str ""),
    price := pyDictGetD fi "price" (.str ""),
    apply_status := pyDictGetD fi "apply_status" (.str ""),
    discount_rt := pyDictGetD fi "discount_rt" (.str "") }

/-- `get_ai_analyses` (main.py lines 157-230) at the state level. -/
def getAiAnalyses (dateValid : Bool) (aiRows : List AiRow)
    (fundRows : List FundsRow) (d : Nat) : ApiResp :=
  if !dateValid then .badRequest
  else
    let analyses := aiRows.filter (fun r => r.date == d)
    if analyses.isEmpty then .ok d 0 []
    else
      let fundDict := getFundsByDateState fundRows d
      let items := analyses.map (mkAnalysisItem fundDict)
      let sorted := items.mergeSort
        (fun x y => keyLe (discountKey y.discount_rt) (discountKey x.discount_rt))
      .ok d sorted.length sorted

def demoAiRow : AiRow :=
  ⟨1, "analysis text", "基金C", "160633", "2026-01-08", 50, 50, 7⟩

def demoFundC : LOFFund :=
  mkLOFFund [("fund_id", .str "160633"), ("fund_nm", .str "基金C"),
             ("nav_dt", .str "2026-01-08"), ("price", .str "1.00"),
             ("estimate_value", .str "1.05"), ("apply_status", .str "开放申购"),
             ("discount_rt", .str "5.2%")]

/-! ### main.py: `run_analysis` (C9, C10)

The pipeline is modelled as the ordered list of externally visible
effects it performs.  Inputs stand for the outcomes of the external
collaborators: the fetched payload, the two environment credentials,
and the Coze call/parse outcome. -/

/-- The key function of `_sort_lof_list` applied to a raw cell: when a
cell is not a dict, `item.get` raises `AttributeError` while the keys
are being computed, the surrounding `try/except Exception` catches it,
and CPython's `list.sort` leaves the list unchanged (keys are computed
before any reordering). -/
def cellKeyOf (field : String) (c : PyVal) : ℚ :=
  match c with
  | .dict fs => sortKey field fs
  | _ => 0

/-- `_sort_lof_list` on the raw cell list. -/
def sortCells (field : String) (cells : List PyVal) : List PyVal :=
  if field ∈ validSortFields then
    if cells.all (fun c => c.isDictV) then
      cells.mergeSort (fun a b => decide (cellKeyOf field b ≤ cellKeyOf field a))
    else cells
  else cells

/-- `LOFDataHandler.__init__` composed: `_parse_data` then the optional
trailing sort (`if self.lof_list and self.sort_by`). -/
def handlerLofList (data : PyVal) (sortBy : Option String) :
    Except String (List PyVal) :=
  (parseData data).map (fun pr =>
    match sortBy with
    | Option.none => pr.2
    | Option.some f => if pr.2.isEmpty || f == "" then pr.2 else sortCells f pr.2)

/-- `get_fund_struct_array` over raw cells: `lof.get` on a non-dict
cell raises `AttributeError` (uncaught inside the method). -/
def structArrayPy : List PyVal → Except String (List LOFFund)
  | [] => .ok []
  | .dict fs :: rest =>
    (structArrayPy rest).map (fun tl => mkLOFFund fs :: tl)
  | _ :: _ => .error "AttributeError: object has no attribute get"

/-- `get_deserve_arbitrage_fund` over raw cells. -/
def deservePy : List PyVal → Except String (List LOFFund)
  | [] => .ok []
  | .dict fs :: rest =>
    if isQualifiedFund fs then
      (deservePy rest).map (fun tl => mkLOFFund fs :: tl)
    else deservePy rest
  | _ :: _ => .error "AttributeError: object has no attribute get"

inductive RunEffect where
  | savedFunds (funds : List LOFFund)
  | cozeRequest
  | savedAnalysis (content name code nav : PyVal)

inductive CozeOutcome where
  | callFailed
  | parseFailed
  | parsed (v : PyVal)

/-- Python falsy test on a credential (`not coze_api_token` is true for
an unset or empty variable). -/
def credMissing : Option String → Bool
  | Option.none => true
  | Option.some s => s == ""

/-- The lazy conjunction `all(key in result for key in [...])`
(main.py line 133): the first membership test on an ill-typed element
raises `TypeError`. -/
def allKeysIn : List String → PyVal → Except String Bool
  | [], _ => .ok true
  | k :: ks, r =>
    (pyContains k r).bind (fun b => if b then allKeysIn ks r else .ok false)

/-- The save loop over the parsed AI results (main.py lines 132-140),
returning the analysis-save effects and whether the loop aborted with
an uncaught-by-the-json-handler exception (`except Exception` at line
148 then ends the batch: earlier saves stand, later elements are
dropped). -/
def processAiResults : List PyVal → List RunEffect × Bool
  | [] => ([], false)
  | r :: rest =>
    match allKeysIn ["fund_name", "fund_code", "analysis_content", "nav_dt"] r with
    | .error _ => ([], true)
    | .ok false => processAiResults rest
    | .ok true =>
      match pySubscript r "analysis_content", pySubscript r "fund_name",
            pySubscript r "fund_code", pySubscript r "nav_dt" with
      | .ok c, .ok n, .ok f, .ok v =>
        ((.savedAnalysis c n f v) :: (processAiResults rest).1,
         (processAiResults rest).2)
      | _, _, _, _ => ([], true)

/-- `run_analysis` (main.py lines 62-154) as its ordered effect list. -/
def runAnalysis (data : PyVal) (token botId : Option String)
    (coze : CozeOutcome) : List RunEffect :=
  if !(pyTruthy data) then []
  else
    match handlerLofList data (Option.some "discount_rt") with
    | .error _ => []
    | .ok cells =>
      match structArrayPy cells with
      | .error _ => []
      | .ok fundsList =>
        match deservePy cells with
        | .error _ => [.savedFunds fundsList]
        | .ok _ =>
          if credMissing token || credMissing botId then [.savedFunds fundsList]
          else
            match coze with
            | .callFailed => [.savedFunds fundsList, .cozeRequest]
            | .parseFailed => [.savedFunds fundsList, .cozeRequest]
            | .parsed v =>
              match v with
              | .list results =>
                if results.isEmpty then [.savedFunds fundsList, .cozeRequest]
                else [.savedFunds fundsList, .cozeRequest] ++
                  (processAiResults results).1
              | _ => [.savedFunds fundsList, .cozeRequest]

def aiGood1 : PyVal :=
  .dict [("fund_name", .str "n1"), ("fund_code", .str "f1"),
         ("analysis_content", .str "a1"), ("nav_dt", .str "d1")]

def aiGood2 : PyVal :=
  .dict [("fund_name", .str "n2"), ("fund_code", .str "f2"),
         ("analysis_content", .str "a2"), ("nav_dt", .str "d2")]

/-- The analysis saves the claim expects: one per array element that is
a dict containing all four keys, in array order. -/
def aiSaveEffects (results : List PyVal) : List RunEffect :=
  results.filterMap (fun r =>
    match r with
    | .dict fs =>
      if (["fund_name", "fund_code", "analysis_content", "nav_dt"]).all
          (fun k => fs.any (fun p => p.1 == k)) then
        Option.some (RunEffect.savedAnalysis
          (pyDictGetD fs "analysis_content" PyVal.none)
          (pyDictGetD fs "fund_name" PyVal.none)
          (pyDictGetD fs "fund_code" PyVal.none)
          (pyDictGetD fs "nav_dt" PyVal.none))
      else Option.none
    | _ => Option.none)

example : isQualifiedFund
    [("apply_status", .str "正常"), ("redeem_status", .str "开放赎回"),
     ("discount_rt", .str "4.5%")] = true := by decide

example : isQualifiedFund
    [("apply_status", .str "正常"), ("redeem_status", .str "开放赎回"),
     ("discount_rt", .str "4.0%")] = false := by decide

example : isQualifiedFund
    [("apply_status", .str "正常"), ("redeem_status", .str "已关闭"),
     ("discount_rt", .str "10%")] = false := by decide

example : isQualifiedFund
    [("apply_status", .str "暂停申购"), ("redeem_status", .str "开放赎回"),
     ("discount_rt", .str "10%")] = false := by decide

theorem PyVal.eqStr_eq_true_iff (v : PyVal) (s : String) :
    v.eqStr s = true ↔ v = .str s := by
  cases v <;> simp [PyVal.eqStr]

theorem getDeserveArbitrageFund_eq_filter_map (l : List Record) :
    getDeserveArbitrageFund l = (l.filter isQualifiedFund).map mkLOFFund := by
  induction l with
  | nil => rfl
  | cons lof rest ih =>
    by_cases h : isQualifiedFund lof = true
    · simp [getDeserveArbitrageFund, List.filter_cons, h, ih]
    · simp [getDeserveArbitrageFund, List.filter_cons, h, ih]

/-- The body of `_is_qualified_fund` as a function of the three accessed
values.  `isQualifiedFund lof` is definitionally this term. -/
theorem qualifiedVals (a r d : PyVal) :
    (if a.eqStr "暂停申购" then false
     else if !(r.eqStr "开放赎回") then false
     else
       match pyFloat (stripPercent d) with
       | Option.some q => decide (q > 4)
       | Option.none => false) = true ↔
    (a ≠ .str "暂停申购" ∧ r = .str "开放赎回" ∧
     ∃ q : ℚ, pyFloat (stripPercent d) = Option.some q ∧ 4 < q) := by
  cases hA : a.eqStr "暂停申购" with
  | true =>
    have ha := (PyVal.eqStr_eq_true_iff a _).mp hA
    simp [ha, PyVal.eqStr]
  | false =>
    have ha : a ≠ .str "暂停申购" := by rintro rfl; simp [PyVal.eqStr] at hA
    rw [if_neg (by simp [hA])]
    cases hR : r.eqStr "开放赎回" with
    | false =>
      have hr : r ≠ .str "开放赎回" := by rintro rfl; simp [PyVal.eqStr] at hR
      rw [if_pos (by simp [hR])]
      simp [ha, hr]
    | true =>
      have hr := (PyVal.eqStr_eq_true_iff r _).mp hR
      rw [if_neg (by simp [hR])]
      cases hF : pyFloat (stripPercent d) with
      | none => simp [hF, ha, hr]
      | some q => simp [hF, ha, hr, GT.gt]

/-- C1: `_is_qualified_fund` holds iff the `apply_status` field (default
`""`) differs from `"暂停申购"`, the `redeem_status` field (default `""`)
equals `"开放赎回"`, and the `discount_rt` field, percent signs stripped
when it is a string, coerces to a rational strictly greater than 4
(coercion failure gives `false`); and `get_deserve_arbitrage_fund`
returns exactly the qualified records, materialized in their original
relative order. -/
theorem isQualifiedFund_characterization (lof : Record) (l : List Record) :
    (isQualifiedFund lof = true ↔
      (pyDictGetD lof "apply_status" (.str "") ≠ .str "暂停申购" ∧
       pyDictGetD lof "redeem_status" (.str "") = .str "开放赎回" ∧
       ∃ q : ℚ, pyFloat (stripPercent (pyDictGetD lof "discount_rt" (.str ""))) =
         Option.some q ∧ 4 < q)) ∧
    getDeserveArbitrageFund l = (l.filter isQualifiedFund).map mkLOFFund :=
  ⟨qualifiedVals (pyDictGetD lof "apply_status" (.str ""))
      (pyDictGetD lof "redeem_status" (.str ""))
      (pyDictGetD lof "discount_rt" (.str "")),
   getDeserveArbitrageFund_eq_filter_map l⟩

/-- Stability of a stable sort, phrased through `filter`: the
subsequence of elements any predicate closed under the ordering picks
out is untouched by the sort. -/
theorem mergeSort_filter_eq {α : Type} (le : α → α → Bool)
    (trans : ∀ a b c, le a b = true → le b c = true → le a c = true)
    (total : ∀ a b, (le a b || le b a) = true)
    (l : List α) (p : α → Bool) (hp : ∀ a b, p a = true → p b = true → le a b = true) :
    (l.mergeSort le).filter p = l.filter p := by
  have hidem : (l.filter p).filter p = l.filter p := by
    simp [List.filter_filter]
  have h1 : (l.filter p).Sublist (l.mergeSort le) := by
    apply List.sublist_mergeSort trans total
    · exact List.pairwise_of_forall_mem_list (fun a ha b hb =>
        hp a b (List.of_mem_filter ha) (List.of_mem_filter hb))
    · exact List.filter_sublist l
  have h2 : (l.filter p).Sublist ((l.mergeSort le).filter p) := by
    have h := h1.filter p
    rwa [hidem] at h
  refine (h2.eq_of_length ?_).symm
  rw [← List.countP_eq_length_filter, ← List.countP_eq_length_filter]
  exact ((List.mergeSort_perm l le).countP_eq p).symm

/-- C3: for `discount_rt`/`premium_rt` the list is permuted into
descending key order, records with equal keys keeping their original
relative order; any other field leaves the list unchanged. -/
theorem sortLofList_spec (field : String) (l : List Record) :
    ((field = "discount_rt" ∨ field = "premium_rt") →
      (sortLofList field l).Perm l ∧
      (sortLofList field l).Pairwise
        (fun a b => sortKey field b ≤ sortKey field a) ∧
      ∀ q : ℚ, (sortLofList field l).filter (fun r => decide (sortKey field r = q)) =
        l.filter (fun r => decide (sortKey field r = q))) ∧
    (field ∉ validSortFields → sortLofList field l = l) := by
  constructor
  · intro hf
    have hmem : field ∈ validSortFields := by
      rcases hf with rfl | rfl <;> simp [validSortFields]
    rw [sortLofList, if_pos hmem]
    have htrans : ∀ a b c : Record,
        decide (sortKey field b ≤ sortKey field a) = true →
        decide (sortKey field c ≤ sortKey field b) = true →
        decide (sortKey field c ≤ sortKey field a) = true := by
      intro a b c hab hbc
      rw [decide_eq_true_iff] at *
      exact le_trans hbc hab
    have htotal : ∀ a b : Record,
        (decide (sortKey field b ≤ sortKey field a) ||
         decide (sortKey field a ≤ sortKey field b)) = true := by
      intro a b
      rcases le_total (sortKey field b) (sortKey field a) with h | h <;> simp [h]
    refine ⟨List.mergeSort_perm l _, ?_, ?_⟩
    · exact (List.sorted_mergeSort htrans htotal l).imp (fun h => of_decide_eq_true h)
    · intro q
      apply mergeSort_filter_eq _ htrans htotal
      intro a b ha hb
      rw [decide_eq_true_iff] at *
      rw [ha, hb]
  · intro hf
    rw [sortLofList, if_neg hf]

/-- Witness for C3 instantiated on the spec's own example records. -/
theorem sortLofList_spec_witness :
    (sortLofList "discount_rt" demoSortRecords).Perm demoSortRecords ∧
    (sortLofList "discount_rt" demoSortRecords).filter
      (fun r => decide (sortKey "discount_rt" r = 5)) =
      demoSortRecords.filter (fun r => decide (sortKey "discount_rt" r = 5)) ∧
    sortLofList "volume" demoSortRecords = demoSortRecords :=
  ⟨((sortLofList_spec "discount_rt" demoSortRecords).1 (Or.inl rfl)).1,
   ((sortLofList_spec "discount_rt" demoSortRecords).1 (Or.inl rfl)).2.2 5,
   (sortLofList_spec "volume" demoSortRecords).2 (by simp [validSortFields])⟩

/-- C5 counterexample: on a record without `nav_dt`, both
materializations fill `nav_dt` with Python `None`, not with the empty
string, refuting the claim that the empty-string default applies to
every field including `nav_dt`. -/
theorem structArray_navdt_counterexample :
    (getFundStructArray [[("fund_id", .str "160633")]]).map LOFFund.nav_dt =
      [PyVal.none] ∧
    (getDeserveArbitrageFund
        [[("fund_id", .str "160633"), ("redeem_status", .str "开放赎回"),
          ("discount_rt", .str "5%")]]).map LOFFund.nav_dt = [PyVal.none] ∧
    PyVal.none ≠ PyVal.str "" :=
  ⟨rfl, rfl, fun h => PyVal.noConfusion h⟩

/-- C5 amended: both materialization operations fill every absent field
except `nav_dt` with the empty string, fill an absent `nav_dt` with
`None`, and share the identical per-field rule (the same constructor). -/
theorem mkLOFFund_default_fill (lof : Record) :
    (∀ p ∈ strDefaultFields,
      pyDictGet lof p.1 = Option.none → p.2 (mkLOFFund lof) = .str "") ∧
    (pyDictGet lof "nav_dt" = Option.none → (mkLOFFund lof).nav_dt = .none) ∧
    (∀ l : List Record,
      getFundStructArray l = l.map mkLOFFund ∧
      getDeserveArbitrageFund l = (l.filter isQualifiedFund).map mkLOFFund) := by
  refine ⟨?_, ?_, fun l => ⟨rfl, getDeserveArbitrageFund_eq_filter_map l⟩⟩
  · intro p hp h
    fin_cases hp <;> simp [mkLOFFund, pyDictGetD, h]
  · intro h
    simp [mkLOFFund, h]

/-- Witness for C5 amended, on the empty record. -/
theorem mkLOFFund_default_fill_witness :
    (mkLOFFund ([] : Record)).fund_id = .str "" ∧
    (mkLOFFund ([] : Record)).nav_dt = .none :=
  ⟨(mkLOFFund_default_fill []).1 ("fund_id", LOFFund.fund_id)
      (by simp [strDefaultFields]) rfl,
   (mkLOFFund_default_fill []).2.1 rfl⟩

/-- C4 counterexample: re-ingesting the same natural key at a later
instant rewrites `created_at` to the later `CURRENT_TIMESTAMP`; the
original creation timestamp (100) is not preserved. -/
theorem saveFunds_created_at_counterexample :
    (saveFunds (saveFunds [] [demoFundA] 10 100) [demoFundB] 11 200).map
        FundsRow.created_at = [200] ∧
    (saveFunds (saveFunds [] [demoFundA] 10 100) [demoFundB] 11 200).map
        FundsRow.price = [PyVal.str "1.100"] ∧
    (200 : Nat) ≠ 100 :=
  ⟨rfl, rfl, by decide⟩

/-- C4 amended: `save_funds` upserts each snapshot on the
`(fund_id, fund_nm, nav_dt)` natural key; on conflict the mutable
market fields and the ingestion date are overwritten and `created_at`
is reset to the current timestamp (not preserved); rows not matching
the key are untouched; without conflict the stamped row is appended. -/
theorem upsertFund_amended_spec (rows : List FundsRow) (f : LOFFund) (today now : Nat) :
    (∀ r ∈ rows, fundKeyConflict r f = false → r ∈ upsertFund rows f today now) ∧
    (rows.any (fun r => fundKeyConflict r f) = true →
      upsertFund rows f today now =
        rows.map (fun r =>
          if fundKeyConflict r f then updateFundRow r f today now else r)) ∧
    (rows.any (fun r => fundKeyConflict r f) = false →
      upsertFund rows f today now = rows ++ [insertFundRow f today now]) ∧
    (∀ r : FundsRow,
      (updateFundRow r f today now).price = f.price ∧
      (updateFundRow r f today now).pre_close = f.pre_close ∧
      (updateFundRow r f today now).price_dt = f.price_dt ∧
      (updateFundRow r f today now).increase_rt = f.increase_rt ∧
      (updateFundRow r f today now).volume = f.volume ∧
      (updateFundRow r f today now).amount = f.amount ∧
      (updateFundRow r f today now).amount_incr = f.amount_incr ∧
      (updateFundRow r f today now).fund_nav = f.fund_nav ∧
      (updateFundRow r f today now).estimate_value = f.estimate_value ∧
      (updateFundRow r f today now).discount_rt = f.discount_rt ∧
      (updateFundRow r f today now).index_id = f.index_id ∧
      (updateFundRow r f today now).index_nm = f.index_nm ∧
      (updateFundRow r f today now).index_increase_rt = f.index_increase_rt ∧
      (updateFundRow r f today now).apply_fee = f.apply_fee ∧
      (updateFundRow r f today now).apply_status = f.apply_status ∧
      (updateFundRow r f today now).redeem_fee = f.redeem_fee ∧
      (updateFundRow r f today now).redeem_status = f.redeem_status ∧
      (updateFundRow r f today now).turnover_rt = f.turnover_rt ∧
      (updateFundRow r f today now).date = today ∧
      (updateFundRow r f today now).created_at = now ∧
      (updateFundRow r f today now).fund_id = r.fund_id ∧
      (updateFundRow r f today now).fund_nm = r.fund_nm ∧
      (updateFundRow r f today now).nav_dt = r.nav_dt) ∧
    (insertFundRow f today now).date = today ∧
    (insertFundRow f today now).created_at = now ∧
    saveFunds rows [f] today now = upsertFund rows f today now := by
  refine ⟨?_, ?_, ?_, fun r => ?_, rfl, rfl, rfl⟩
  · intro r hr hc
    by_cases h : rows.any (fun r => fundKeyConflict r f) = true
    · rw [upsertFund, if_pos h]
      exact List.mem_map.mpr ⟨r, hr, by rw [hc]; rfl⟩
    · rw [upsertFund, if_neg h]
      exact List.mem_append_left _ hr
  · intro h
    rw [upsertFund, if_pos h]
  · intro h
    rw [upsertFund, if_neg (by rw [h]; exact Bool.false_ne_true)]
  · exact ⟨rfl, rfl, rfl, rfl, rfl, rfl, rfl, rfl, rfl, rfl, rfl, rfl,
      rfl, rfl, rfl, rfl, rfl, rfl, rfl, rfl, rfl, rfl, rfl⟩

/-- Witness for C4 amended, on a one-row table colliding with the
incoming snapshot. -/
theorem upsertFund_amended_spec_witness :
    (insertFundRow demoFundB 11 200).date = 11 ∧
    upsertFund [insertFundRow demoFundA 10 100] demoFundB 11 200 =
      [updateFundRow (insertFundRow demoFundA 10 100) demoFundB 11 200] ∧
    (updateFundRow (insertFundRow demoFundA 10 100) demoFundB 11 200).created_at = 200 :=
  ⟨(upsertFund_amended_spec [insertFundRow demoFundA 10 100] demoFundB 11 200).2.2.2.2.1,
   (upsertFund_amended_spec [insertFundRow demoFundA 10 100] demoFundB 11 200).2.1 rfl,
   ((upsertFund_amended_spec [insertFundRow demoFundA 10 100] demoFundB 11 200).2.2.2.1
      (insertFundRow demoFundA 10 100)).2.2.2.2.2.2.2.2.2.2.2.2.2.2.2.2.2.2.2.1⟩

/-- C2: saving the same `(fund_code, analysis_date)` natural key twice
leaves TWO stored rows for that key, because `create_tables` gives
`ai_analyses` no unique key beyond the auto-increment `id`, so the
`ON DUPLICATE KEY UPDATE` clause of `save_ai_analysis` never fires.
The claim (exactly one overwritten row) is the documented intent of the
insert statement, which the schema defeats: a code bug. -/
theorem saveAiAnalysis_duplicates_natural_key :
    (let s1 := saveAiAnalysis [] 0 "first analysis" "基金A" "160633"
      (Option.some "2026-01-08") (Option.some 7) "2026-01-09" 7 100
     let s2 := saveAiAnalysis s1.1 s1.2 "second analysis" "基金A" "160633"
      (Option.some "2026-01-08") (Option.some 7) "2026-01-09" 7 200
     (s2.1.filter (fun r => r.fund_code == "160633" && r.date == 7)).map
        AiRow.analysis_content) = ["first analysis", "second analysis"] :=
  rfl

/-- C7 counterexample: a live connection whose first query dies with a
detected connection loss while a reconnect and retry would succeed.
`get_funds_by_date` returns its empty sentinel without retrying, while
the claim demands one transparent retry returning the rows. -/
theorem getFundsByDate_no_retry_counterexample :
    getFundsByDateOp (⟨true, true, Except.error DbErr.connLost,
        Except.ok [7]⟩ : DbEnv Nat) = [] ∧
    specGetFundsByDateOp (⟨true, true, Except.error DbErr.connLost,
        Except.ok [7]⟩ : DbEnv Nat) = [7] ∧
    ([] : List Nat) ≠ [7] :=
  ⟨rfl, rfl, by decide⟩

/-- C7 amended: every operation first runs the `ensure_connection`
guard and reports its failure sentinel when reconnection fails; only
`query_to_model` retries (exactly once) on a detected connection-loss
error; the two dict queries and the two saves report their sentinel on
any execution failure without retrying. -/
theorem connectionHandling_amended {Row : Type} (env : DbEnv Row) :
    (env.connected = false → env.connectOk = false →
      queryToModel env = [] ∧ getFundsByDateOp env = [] ∧
      getFundsByNavDtOp env = [] ∧ saveFundsOp env = false ∧
      saveAiAnalysisOp env = false) ∧
    (env.exec1 = Except.error DbErr.connLost → env.connectOk = true →
      queryToModel env =
        (match env.exec2 with
         | Except.ok rows => rows
         | Except.error _ => [])) ∧
    (∀ e : DbErr, env.exec1 = Except.error e →
      getFundsByDateOp env = [] ∧ getFundsByNavDtOp env = [] ∧
      saveFundsOp env = false ∧ saveAiAnalysisOp env = false) ∧
    (env.exec1 = Except.error DbErr.other → queryToModel env = []) := by
  obtain ⟨c, k, e1, e2⟩ := env
  refine ⟨?_, ?_, ?_, ?_⟩
  · rintro rfl rfl
    exact ⟨rfl, rfl, rfl, rfl, rfl⟩
  · rintro rfl rfl
    cases c <;> rfl
  · rintro e rfl
    cases c <;> cases k <;>
      exact ⟨rfl, rfl, rfl, rfl⟩
  · rintro rfl
    cases c <;> cases k <;> rfl

/-- Witness for C7 amended: the guard sentinel and the one retry, on
concrete environments. -/
theorem connectionHandling_amended_witness :
    queryToModel (⟨false, false, Except.ok [1], Except.ok [2]⟩ : DbEnv Nat) = [] ∧
    queryToModel (⟨true, true, Except.error DbErr.connLost,
        Except.ok [5]⟩ : DbEnv Nat) = [5] ∧
    getFundsByDateOp (⟨true, true, Except.error DbErr.connLost,
        Except.ok [5]⟩ : DbEnv Nat) = [] :=
  ⟨((connectionHandling_amended (⟨false, false, Except.ok [1], Except.ok [2]⟩ :
      DbEnv Nat)).1 rfl rfl).1,
   (connectionHandling_amended (⟨true, true, Except.error DbErr.connLost,
      Except.ok [5]⟩ : DbEnv Nat)).2.1 rfl rfl,
   ((connectionHandling_amended (⟨true, true, Except.error DbErr.connLost,
      Except.ok [5]⟩ : DbEnv Nat)).2.2.1 DbErr.connLost rfl).1⟩

/-- C6 counterexample: the payload `{"rows": 0}` is truthy and a
mapping, but `len(raw['rows'])` raises `TypeError`, so constructing the
handler raises, refuting the claim that construction never raises for
any payload whose `rows` value is not a list. -/
theorem parseData_raises_counterexample :
    parseData (.dict [("rows", .int 0)]) =
      Except.error "TypeError: object has no len" :=
  rfl

/-- `parseData` unfolded (definitional). -/
theorem parseData_def (raw : PyVal) :
    parseData raw =
      if !(pyTruthy raw) then .ok ([], [])
      else
        match raw with
        | .dict fs =>
          (parsePageInfo fs).bind (fun pageInfo =>
            if fs.any (fun p => p.1 == "rows") then
              (extractRows (pyDictGetD fs "rows" .none)).map
                (fun cells => (pageInfo, cells))
            else .ok (pageInfo, []))
        | _ => .ok ([], []) :=
  rfl

theorem pyDictGet_any (fs : Record) (k : String) (v : PyVal)
    (h : pyDictGet fs k = Option.some v) : fs.any (fun p => p.1 == k) = true := by
  rw [pyDictGet] at h
  cases hf : fs.find? (fun q => q.1 == k) with
  | none => rw [hf] at h; simp at h
  | some q =>
    have hq := List.find?_some hf
    exact List.any_eq_true.mpr ⟨q, List.mem_of_find?_eq_some hf, hq⟩

theorem isPrefixOf_length_le :
    ∀ (a b : List Char), a.isPrefixOf b = true → a.length ≤ b.length := by
  intro a
  induction a with
  | nil => intro b _; simp
  | cons x xs ih =>
    intro b h
    cases b with
    | nil => simp [List.isPrefixOf] at h
    | cons y ys =>
      simp only [List.isPrefixOf, Bool.and_eq_true] at h
      have := ih ys h.2
      simp only [List.length_cons]
      omega

theorem isSubstringOf_short (needle hay : List Char)
    (h : hay.length < needle.length) : isSubstringOf needle hay = false := by
  rw [isSubstringOf, List.any_eq_false]
  intro i _ hp
  have hlen := isPrefixOf_length_le _ _ hp
  rw [List.length_drop] at hlen
  omega

theorem extractLoop_dicts (rows : List PyVal)
    (h : ∀ r ∈ rows, r.isDictV = true) (acc : List PyVal) :
    extractRowsLoop rows acc = Except.ok (acc ++ extractCellsOfDicts rows) := by
  induction rows generalizing acc with
  | nil => simp [extractRowsLoop, extractCellsOfDicts]
  | cons row rest ih =>
    have hrow := h row (by simp)
    have hrest : ∀ r ∈ rest, r.isDictV = true := fun r hr => h r (by simp [hr])
    obtain ⟨g, rfl⟩ : ∃ g, row = PyVal.dict g := by
      cases row <;> simp [PyVal.isDictV] at hrow
      exact ⟨_, rfl⟩
    cases hc : g.any (fun p => p.1 == "cell") with
    | false =>
      have hget : pyDictGet g "cell" = Option.none := by
        rw [pyDictGet, List.find?_eq_none.mpr]
        · rfl
        · intro x hx
          exact (List.any_eq_false.mp hc) x hx
      simp [extractRowsLoop, pyContains, Except.bind, hc, ih hrest,
        extractCellsOfDicts, hget]
    | true =>
      obtain ⟨p, hmem, hp⟩ := List.any_eq_true.mp hc
      have hsome : (g.find? (fun q => q.1 == "cell")).isSome :=
        List.find?_isSome.mpr ⟨p, hmem, hp⟩
      obtain ⟨pp, hfind⟩ := Option.isSome_iff_exists.mp hsome
      have hget : pyDictGet g "cell" = Option.some pp.2 := by
        rw [pyDictGet, hfind]; rfl
      simp [extractRowsLoop, pyContains, Except.bind, hc, pySubscript, hget,
        ih hrest, extractCellsOfDicts]

theorem extractLoop_chars (cs : List Char) (acc : List PyVal) :
    extractRowsLoop (cs.map (fun c => .str (String.mk [c]))) acc =
      Except.ok acc := by
  induction cs generalizing acc with
  | nil => simp [extractRowsLoop]
  | cons c rest ih =>
    have hsub : isSubstringOf "cell".data (String.mk [c]).data = false := by
      apply isSubstringOf_short
      show (1 : Nat) < 4
      omega
    simp [extractRowsLoop, pyContains, Except.bind, hsub, ih]

theorem parsePageInfo_ok (fs : Record) (hpage : pageShapeOk fs)
    (hlen : ∃ m, pyLen (pyDictGetD fs "rows" (.list [])) = Except.ok m)
    (hlen2 : ∃ m, pyLen (pyDictGetD fs "rows" PyVal.none) = Except.ok m) :
    ∃ pi : Record, parsePageInfo fs = Except.ok pi := by
  obtain ⟨m, hm⟩ := hlen
  obtain ⟨m2, hm2⟩ := hlen2
  rw [parsePageInfo]
  cases hg : pyDictGet fs "page" with
  | none =>
    cases hr : fs.any (fun p => p.1 == "rows") with
    | false => exact ⟨[], by simp [hr]⟩
    | true =>
      exact ⟨[("page", .int 1), ("total", .int 1), ("records", .int (m2 : Int))],
        by simp [hr, hm2, Except.map]⟩
  | some pv =>
    cases pv with
    | dict g => exact ⟨g, rfl⟩
    | int n =>
      exact ⟨[("page", .int n), ("total", pyDictGetD fs "total" (.int 1)),
          ("records", pyDictGetD fs "records" (.int (m : Int)))],
        by simp [pyInt, hm, Except.bind, Except.map]⟩
    | bool b =>
      exact ⟨[("page", .int (if b then 1 else 0)),
          ("total", pyDictGetD fs "total" (.int 1)),
          ("records", pyDictGetD fs "records" (.int (m : Int)))],
        by simp [pyInt, hm, Except.bind, Except.map]⟩
    | str t =>
      obtain ⟨n, hn⟩ := hpage t hg
      exact ⟨[("page", .int n), ("total", pyDictGetD fs "total" (.int 1)),
          ("records", pyDictGetD fs "records" (.int (m : Int)))],
        by simp [hn, hm, Except.bind, Except.map]⟩
    | none => exact ⟨[], rfl⟩
    | float q => exact ⟨[], rfl⟩
    | list xs => exact ⟨[], rfl⟩

/-- C6 amended: construction never raises and yields an empty record
sequence for falsy (None/empty) or non-mapping payloads; when `rows` is
a list of dicts and any string `page` value is an integer numeral, it
never raises, list entries lacking a `cell` key are skipped, and a
`page` value of unrecognized shape still leaves the rows extracted; a
`rows` string also extracts to the empty sequence.  (A non-sized `rows`
value such as a number raises, per the counterexample.) -/
theorem parseData_amended (raw : PyVal) (fs : Record) (rows : List PyVal)
    (s : String) :
    (pyTruthy raw = false → parseData raw = Except.ok ([], [])) ∧
    (raw.isDictV = false → parseData raw = Except.ok ([], [])) ∧
    (pyDictGet fs "rows" = Option.some (.list rows) →
      (∀ r ∈ rows, r.isDictV = true) → pageShapeOk fs →
      ∃ pi : Record, parseData (.dict fs) = Except.ok (pi, extractCellsOfDicts rows)) ∧
    (pyDictGet fs "rows" = Option.some (.str s) → pageShapeOk fs →
      ∃ pi : Record, parseData (.dict fs) = Except.ok (pi, [])) := by
  refine ⟨?_, ?_, ?_, ?_⟩
  · intro h
    rw [parseData_def, if_pos (by rw [h]; rfl)]
  · intro h
    rw [parseData_def]
    cases hB : pyTruthy raw with
    | false => simp
    | true =>
      simp only [hB, Bool.not_true, Bool.false_eq_true, if_false]
      cases raw <;> first
        | rfl
        | simp [PyVal.isDictV] at h
  · intro hget hdicts hpage
    have hany : fs.any (fun p => p.1 == "rows") = true := pyDictGet_any fs _ _ hget
    have hD : pyDictGetD fs "rows" (.list []) = .list rows := by
      simp [pyDictGetD, hget]
    have hD2 : pyDictGetD fs "rows" PyVal.none = .list rows := by
      simp [pyDictGetD, hget]
    obtain ⟨pi, hpi⟩ := parsePageInfo_ok fs hpage
      ⟨rows.length, by rw [hD]; rfl⟩ ⟨rows.length, by rw [hD2]; rfl⟩
    have htr : pyTruthy (.dict fs) = true := by
      cases fs with
      | nil => simp [pyDictGet] at hget
      | cons p rest => simp [pyTruthy]
    refine ⟨pi, ?_⟩
    rw [parseData_def, if_neg (by rw [htr]; simp)]
    simp [hpi, hany, hD2, extractRows, pyIter, Except.bind, Except.map,
      extractLoop_dicts rows hdicts]
  · intro hget hpage
    have hany : fs.any (fun p => p.1 == "rows") = true := pyDictGet_any fs _ _ hget
    have hD : pyDictGetD fs "rows" (.list []) = .str s := by
      simp [pyDictGetD, hget]
    have hD2 : pyDictGetD fs "rows" PyVal.none = .str s := by
      simp [pyDictGetD, hget]
    obtain ⟨pi, hpi⟩ := parsePageInfo_ok fs hpage
      ⟨s.length, by rw [hD]; rfl⟩ ⟨s.length, by rw [hD2]; rfl⟩
    have htr : pyTruthy (.dict fs) = true := by
      cases fs with
      | nil => simp [pyDictGet] at hget
      | cons p rest => simp [pyTruthy]
    refine ⟨pi, ?_⟩
    rw [parseData_def, if_neg (by rw [htr]; simp)]
    simp [hpi, hany, hD2, extractRows, pyIter, Except.bind, Except.map,
      extractLoop_chars]

/-- Witness for C6 amended: a falsy payload, a non-mapping payload, a
well-shaped rows list (one entry with a cell, one without), and a
string rows value. -/
theorem parseData_amended_witness :
    parseData PyVal.none = Except.ok ([], []) ∧
    parseData (.list [.int 1]) = Except.ok ([], []) ∧
    (∃ pi : Record, parseData (.dict [("rows", .list
        [.dict [("cell", .dict [("fund_id", .str "160633")])], .dict []])]) =
      Except.ok (pi, [.dict [("fund_id", .str "160633")]])) ∧
    (∃ pi : Record, parseData (.dict [("rows", .str "not-a-list")]) =
      Except.ok (pi, [])) :=
  ⟨(parseData_amended PyVal.none [] [] "").1 rfl,
   (parseData_amended (.list [.int 1]) [] [] "").2.1 rfl,
   (parseData_amended PyVal.none [("rows", .list
        [.dict [("cell", .dict [("fund_id", .str "160633")])], .dict []])]
      [.dict [("cell", .dict [("fund_id", .str "160633")])], .dict []] "").2.2.1
     rfl (by decide) (by intro t ht; simp [pyDictGet] at ht),
   (parseData_amended PyVal.none [("rows", .str "not-a-list")] [] "not-a-list").2.2.2
     rfl (by intro t ht; simp [pyDictGet] at ht)⟩

/-- C8: on a state where the matching fund snapshot carries
`discount_rt = "5.2%"`, the endpoint returns the item with
`discount_rt = ""` (and therefore a vacuous sort), because the SELECT
of `get_funds_by_date` omits the `discount_rt` column while the
endpoint code nevertheless reads and sorts by it — the code defeats its
own join-and-sort intent: a code bug. -/
theorem endpoint_discount_rt_code_bug :
    (insertFundRow demoFundC 7 100).discount_rt = .str "5.2%" ∧
    getAiAnalyses true [demoAiRow] [insertFundRow demoFundC 7 100] 7 =
      ApiResp.ok 7 1
        [{ data := "analysis text", title := "基金C(160633)",
           fund_name := "基金C", fund_code := "160633",
           nav_dt := "2026-01-08", estimate_value := .str "1.05",
           price := .str "1.00", apply_status := .str "开放申购",
           discount_rt := .str "" }] ∧
    PyVal.str "" ≠ PyVal.str "5.2%" := by
  refine ⟨rfl, ?_, by simp⟩
  have h1 : getAiAnalyses true [demoAiRow] [insertFundRow demoFundC 7 100] 7 =
      ApiResp.ok 7
        (([{ data := "analysis text", title := "基金C(160633)",
             fund_name := "基金C", fund_code := "160633",
             nav_dt := "2026-01-08", estimate_value := .str "1.05",
             price := .str "1.00", apply_status := .str "开放申购",
             discount_rt := .str "" }] : List AnalysisItem).mergeSort
          (fun x y => keyLe (discountKey y.discount_rt)
            (discountKey x.discount_rt))).length
        (([{ data := "analysis text", title := "基金C(160633)",
             fund_name := "基金C", fund_code := "160633",
             nav_dt := "2026-01-08", estimate_value := .str "1.05",
             price := .str "1.00", apply_status := .str "开放申购",
             discount_rt := .str "" }] : List AnalysisItem).mergeSort
          (fun x y => keyLe (discountKey y.discount_rt)
            (discountKey x.discount_rt))) := rfl
  rw [h1, List.mergeSort_singleton]
  rfl

/-- C9: when the payload is truthy and the handler and struct-array
steps succeed, the whole snapshot batch is already persisted through
`save_funds` before the credential check runs, so a missing (unset or
empty) `COZE_API_TOKEN` or `COZE_BOT_ID` aborts the run with exactly
the fund save performed: no Coze request, no analysis save. -/
theorem runAnalysis_missing_credentials (data : PyVal)
    (token botId : Option String) (coze : CozeOutcome)
    (cells : List PyVal) (funds : List LOFFund)
    (h1 : pyTruthy data = true)
    (h2 : handlerLofList data (Option.some "discount_rt") = Except.ok cells)
    (h3 : structArrayPy cells = Except.ok funds)
    (h4 : (credMissing token || credMissing botId) = true) :
    runAnalysis data token botId coze = [.savedFunds funds] := by
  rw [runAnalysis, if_neg (by rw [h1]; simp)]
  simp only [h2, h3]
  cases hd : deservePy cells with
  | error e => rfl
  | ok ds => simp [h4]

/-- Witness for C9 on a concrete empty-rows payload with an unset
token. -/
theorem runAnalysis_missing_credentials_witness :
    runAnalysis (.dict [("rows", .list [])]) Option.none
      (Option.some "bot-1") CozeOutcome.callFailed = [.savedFunds []] :=
  runAnalysis_missing_credentials (.dict [("rows", .list [])])
    Option.none (Option.some "bot-1") CozeOutcome.callFailed [] []
    rfl rfl rfl rfl

/-- C10 counterexample: in the parsed array `[good, 5, good2]` the
number element makes `'fund_name' in result` raise `TypeError`, which
only the outer `except Exception` catches; the loop aborts, so `good2`
— although it contains all four keys — is never saved, refuting the
claim that non-qualifying elements are skipped while the remaining
elements are still saved. -/
theorem runAnalysis_abort_counterexample :
    runAnalysis (.dict [("rows", .list [])]) (Option.some "tok")
      (Option.some "bot") (.parsed (.list [aiGood1, .int 5, aiGood2])) =
      [.savedFunds [], .cozeRequest,
       .savedAnalysis (.str "a1") (.str "n1") (.str "f1") (.str "d1")] ∧
    RunEffect.savedAnalysis (.str "a2") (.str "n2") (.str "f2") (.str "d2") ∉
      runAnalysis (.dict [("rows", .list [])]) (Option.some "tok")
        (Option.some "bot") (.parsed (.list [aiGood1, .int 5, aiGood2])) := by
  have e : runAnalysis (.dict [("rows", .list [])]) (Option.some "tok")
      (Option.some "bot") (.parsed (.list [aiGood1, .int 5, aiGood2])) =
      [.savedFunds [], .cozeRequest,
       .savedAnalysis (.str "a1") (.str "n1") (.str "f1") (.str "d1")] := rfl
  refine ⟨e, ?_⟩
  rw [e]
  intro h
  simp only [List.mem_cons, List.not_mem_nil, or_false] at h
  rcases h with h | h | h
  · exact RunEffect.noConfusion h
  · exact RunEffect.noConfusion h
  · injection h with h1 h2 h3 h4
    injection h1 with h1
    exact absurd h1 (by decide)

theorem allKeysIn_dict (ks : List String) (fs : Record) :
    allKeysIn ks (.dict fs) =
      Except.ok (ks.all (fun k => fs.any (fun p => p.1 == k))) := by
  induction ks with
  | nil => rfl
  | cons k ks ih =>
    cases hb : fs.any (fun p => p.1 == k) with
    | true => simp [allKeysIn, pyContains, Except.bind, hb, ih]
    | false => simp [allKeysIn, pyContains, Except.bind, hb]

theorem pySubscript_of_any (fs : Record) (k : String)
    (h : fs.any (fun p => p.1 == k) = true) :
    pySubscript (.dict fs) k = Except.ok (pyDictGetD fs k PyVal.none) := by
  obtain ⟨p, hmem, hp⟩ := List.any_eq_true.mp h
  have hsome : (fs.find? (fun q => q.1 == k)).isSome :=
    List.find?_isSome.mpr ⟨p, hmem, hp⟩
  obtain ⟨pp, hfind⟩ := Option.isSome_iff_exists.mp hsome
  simp [pySubscript, pyDictGet, pyDictGetD, hfind]

theorem processAiResults_dicts (results : List PyVal)
    (h : ∀ r ∈ results, r.isDictV = true) :
    processAiResults results = (aiSaveEffects results, false) := by
  induction results with
  | nil => rfl
  | cons r rest ih =>
    have hr := h r (by simp)
    have hrest : ∀ x ∈ rest, x.isDictV = true := fun x hx => h x (by simp [hx])
    obtain ⟨fs, rfl⟩ : ∃ fs, r = PyVal.dict fs := by
      cases r <;> simp [PyVal.isDictV] at hr
      exact ⟨_, rfl⟩
    rw [processAiResults, allKeysIn_dict]
    cases hall : (["fund_name", "fund_code", "analysis_content", "nav_dt"]).all
        (fun k => fs.any (fun p => p.1 == k)) with
    | false =>
      simp only [ih hrest, aiSaveEffects, List.filterMap_cons]
      rw [hall]
      simp
    | true =>
      have hks := List.all_eq_true.mp hall
      have h1 : fs.any (fun p => p.1 == "fund_name") = true :=
        hks "fund_name" (by simp)
      have h2 : fs.any (fun p => p.1 == "fund_code") = true :=
        hks "fund_code" (by simp)
      have h3 : fs.any (fun p => p.1 == "analysis_content") = true :=
        hks "analysis_content" (by simp)
      have h4 : fs.any (fun p => p.1 == "nav_dt") = true :=
        hks "nav_dt" (by simp)
      rw [pySubscript_of_any fs _ h3, pySubscript_of_any fs _ h1,
        pySubscript_of_any fs _ h2, pySubscript_of_any fs _ h4]
      simp [ih hrest, aiSaveEffects, List.filterMap_cons, h1, h2, h3, h4]

/-- C10 amended: for a parsed AI response array all of whose elements
are mappings, `save_ai_analysis` is invoked exactly for the elements
containing all four keys `fund_name`, `fund_code`, `analysis_content`,
`nav_dt`, in order, and the others are silently skipped.  (An element
that is not a mapping aborts the loop, per the counterexample.) -/
theorem runAnalysis_saves_keyed_results (data : PyVal)
    (token botId : Option String) (cells : List PyVal)
    (funds ds : List LOFFund) (results : List PyVal)
    (h1 : pyTruthy data = true)
    (h2 : handlerLofList data (Option.some "discount_rt") = Except.ok cells)
    (h3 : structArrayPy cells = Except.ok funds)
    (h5 : deservePy cells = Except.ok ds)
    (h6 : credMissing token = false) (h7 : credMissing botId = false)
    (h8 : ∀ r ∈ results, r.isDictV = true) (h9 : results ≠ []) :
    runAnalysis data token botId (.parsed (.list results)) =
      [.savedFunds funds, .cozeRequest] ++ aiSaveEffects results := by
  have hemp : results.isEmpty = false := by
    cases results with
    | nil => exact absurd rfl h9
    | cons a tl => rfl
  rw [runAnalysis, if_neg (by rw [h1]; simp)]
  simp only [h2, h3, h5, h6, h7, Bool.or_self, Bool.false_eq_true, if_false,
    hemp, processAiResults_dicts results h8]

/-- Witness for C10 amended: a single well-keyed element is saved. -/
theorem runAnalysis_saves_keyed_results_witness :
    runAnalysis (.dict [("rows", .list [])]) (Option.some "tok")
      (Option.some "bot") (.parsed (.list [aiGood1])) =
      [.savedFunds [], .cozeRequest,
       .savedAnalysis (.str "a1") (.str "n1") (.str "f1") (.str "d1")] := by
  have h := runAnalysis_saves_keyed_results (.dict [("rows", .list [])])
    (Option.some "tok") (Option.some "bot") [] [] [] [aiGood1]
    rfl rfl rfl rfl rfl rfl (by decide) (List.cons_ne_nil _ _)
  rw [h]
  rfl
